import Mathlib

/-
  Verification of the MLS-MPM fluid-solver core of the lisal repository.

  The definitions below are a shallow embedding of the Rust sources
  src/water/grid.rs, src/water/mlsmpm.rs, src/water/fluid.rs and
  src/tech/pump.rs.  Floating-point values are modelled by exact
  arithmetic: rationals on the sqrt-free code paths and reals where the
  source calls f32::sqrt.  The integer casts that matter are modelled
  explicitly: the saturating f32-to-u32 cast used for the particle cell
  is an integer floor clamped at zero, and the wrapping i32-to-u32 cast
  used for stencil neighbor coordinates is reduction modulo 2^32.
-/

namespace Lisal

/-- Three-component vector over an exact field, modelling glam Vec3A. -/
structure V3 (K : Type) where
  x : K
  y : K
  z : K
deriving DecidableEq

/-- Column-major three-by-three matrix, modelling glam Mat3A
    (the three fields are the matrix columns). -/
structure M3 (K : Type) where
  xAxis : V3 K
  yAxis : V3 K
  zAxis : V3 K
deriving DecidableEq

variable {K : Type} [Field K]

/-- Componentwise vector addition. -/
def V3.add (a b : V3 K) : V3 K := ⟨a.x + b.x, a.y + b.y, a.z + b.z⟩

/-- Componentwise vector subtraction. -/
def V3.sub (a b : V3 K) : V3 K := ⟨a.x - b.x, a.y - b.y, a.z - b.z⟩

/-- Scalar multiplication of a vector. -/
def V3.smul (s : K) (v : V3 K) : V3 K := ⟨s * v.x, s * v.y, s * v.z⟩

/-- Dot product. -/
def V3.dot (a b : V3 K) : K := a.x * b.x + a.y * b.y + a.z * b.z

/-- The zero vector. -/
def V3.zero : V3 K := ⟨0, 0, 0⟩

/-- Componentwise division of a vector by a scalar (Vec3A / f32). -/
def V3.div (v : V3 K) (s : K) : V3 K := ⟨v.x / s, v.y / s, v.z / s⟩

/-- The zero matrix. -/
def M3.zero : M3 K := ⟨V3.zero, V3.zero, V3.zero⟩

/-- Matrix-vector product of a column-major matrix, as glam computes it:
    x_axis * v.x + y_axis * v.y + z_axis * v.z. -/
def M3.mulVec (m : M3 K) (v : V3 K) : V3 K :=
  V3.add (V3.add (V3.smul v.x m.xAxis) (V3.smul v.y m.yAxis)) (V3.smul v.z m.zAxis)

/-- Determinant of a column-major three-by-three matrix
    (x_axis dot (y_axis cross z_axis)), as Mat3A::determinant computes it. -/
def M3.det (m : M3 K) : K :=
  V3.dot m.xAxis
    ⟨m.yAxis.y * m.zAxis.z - m.yAxis.z * m.zAxis.y,
     m.yAxis.z * m.zAxis.x - m.yAxis.x * m.zAxis.z,
     m.yAxis.x * m.zAxis.y - m.yAxis.y * m.zAxis.x⟩

/-- Trace (sum of the diagonal entries) of a three-by-three matrix. -/
def M3.trace (m : M3 K) : K := m.xAxis.x + m.yAxis.y + m.zAxis.z

/-- Scalar multiplication of a matrix (Mat3A times f32). -/
def M3.smul (s : K) (m : M3 K) : M3 K :=
  ⟨V3.smul s m.xAxis, V3.smul s m.yAxis, V3.smul s m.zAxis⟩

/-- Grid dimensions (grid_dim in src/water/grid.rs). -/
structure GridDim where
  gx : ℕ
  gy : ℕ
  gz : ℕ
deriving DecidableEq

/-- Total number of grid cells, Grid::cell_count. -/
def GridDim.cell_count (g : GridDim) : ℕ := g.gx * g.gy * g.gz

/-- Grid::index_of from src/water/grid.rs: the linear index
    grid_dim.x * grid_dim.y * z + grid_dim.x * y + x, clamped to
    cell_count - 1 whenever it reaches or exceeds cell_count. -/
def GridDim.index_of (g : GridDim) (x y z : ℕ) : ℕ :=
  if g.cell_count ≤ g.gx * g.gy * z + g.gx * y + x then g.cell_count - 1
  else g.gx * g.gy * z + g.gx * y + x

/-- Grid::to_3d from src/water/grid.rs: inverse mapping of the linear index. -/
def GridDim.to_3d (g : GridDim) (i : ℕ) : ℕ × ℕ × ℕ :=
  (i % g.gx, (i / g.gx) % g.gy, (i / (g.gx * g.gy)) % g.gz)

/-- quadratic_interpolation_weights from src/water/grid.rs: the array of
    three per-axis quadratic B-spline weight vectors, indexed by the
    stencil offset 0, 1, 2. -/
def quadratic_interpolation_weights (cd : V3 ℚ) (i : ℕ) : V3 ℚ :=
  if i = 0 then
    ⟨1/2 * (1/2 - cd.x)^2, 1/2 * (1/2 - cd.y)^2, 1/2 * (1/2 - cd.z)^2⟩
  else if i = 1 then
    ⟨3/4 - cd.x^2, 3/4 - cd.y^2, 3/4 - cd.z^2⟩
  else if i = 2 then
    ⟨1/2 * (1/2 + cd.x)^2, 1/2 * (1/2 + cd.y)^2, 1/2 * (1/2 + cd.z)^2⟩
  else V3.zero

/-- Sum of the 27 stencil weights w[gx].x * w[gy].y * w[gz].z used by the
    p2g and g2p loops of src/water/mlsmpm.rs and src/water/fluid.rs. -/
def weight_sum (d : V3 ℚ) : ℚ :=
  ∑ gz ∈ Finset.range 3, ∑ gy ∈ Finset.range 3, ∑ gx ∈ Finset.range 3,
    (quadratic_interpolation_weights d gx).x *
    (quadratic_interpolation_weights d gy).y *
    (quadratic_interpolation_weights d gz).z

/-- Model of the Rust saturating cast from f32 to u32 used by
    Vec3A::as_uvec3 (truncation toward zero, clamped below at 0): after
    Int.toNat, the integer floor and the truncation toward zero agree. -/
def as_u32 (q : ℚ) : ℕ := ⌊q⌋.toNat

/-- The particle cell location.0.as_uvec3() of the p2g stages. -/
def particle_cell (p : V3 ℚ) : ℕ × ℕ × ℕ := (as_u32 p.x, as_u32 p.y, as_u32 p.z)

/-- The offset cell_diff = (location - cell_idx as vector) - 0.5. -/
def cell_diff_of (p : V3 ℚ) : V3 ℚ :=
  ⟨p.x - ((particle_cell p).1 : ℚ) - 1/2,
   p.y - ((particle_cell p).2.1 : ℚ) - 1/2,
   p.z - ((particle_cell p).2.2 : ℚ) - 1/2⟩

/-- Model of the wrapping i32-to-u32 cast of the stencil loops. -/
def wrap_u32 (i : ℤ) : ℕ := (i % 2 ^ 32).toNat

/-- One component of cell_pos = (cell_idx as i32 + g as i32 - 1) as u32. -/
def neighbor_coord (c o : ℕ) : ℕ := wrap_u32 ((c : ℤ) + (o : ℤ) - 1)

/-- The stencil neighbor coordinates of a particle for offsets gx gy gz. -/
def stage1_neighbor (p : V3 ℚ) (gx gy gz : ℕ) : ℕ × ℕ × ℕ :=
  (neighbor_coord (particle_cell p).1 gx,
   neighbor_coord (particle_cell p).2.1 gy,
   neighbor_coord (particle_cell p).2.2 gz)

/-- The distance cell_dist = (cell_pos as vector - location) + 0.5. -/
def cell_dist_of (p : V3 ℚ) (n : ℕ × ℕ × ℕ) : V3 ℚ :=
  ⟨(n.1 : ℚ) - p.x + 1/2, (n.2.1 : ℚ) - p.y + 1/2, (n.2.2 : ℚ) - p.z + 1/2⟩

/-- Fluid particle state used by p2g stage 1 (src/water/resources.rs). -/
structure Particle where
  pos : V3 ℚ
  vel : V3 ℚ
  mass : ℚ
  affine : M3 ℚ

/-- The stencil weight weights[gx].x * weights[gy].y * weights[gz].z. -/
def stage1_weight (p : V3 ℚ) (gx gy gz : ℕ) : ℚ :=
  (quadratic_interpolation_weights (cell_diff_of p) gx).x *
  (quadratic_interpolation_weights (cell_diff_of p) gy).y *
  (quadratic_interpolation_weights (cell_diff_of p) gz).z

/-- One scatter record CellMMAChange (src/water/resources.rs). -/
structure CellMMAChange where
  cell_idx : ℕ
  mass : ℚ
  momentum : V3 ℚ

/-- One scatter entry written by p2g_stage1 (src/water/mlsmpm.rs):
    cell index through the clamped indexer, mass contribution
    weight * mass, and momentum (velocity + affine * cell_dist)
    scaled by the mass contribution. -/
def p2g_stage1_entry (g : GridDim) (pt : Particle) (gx gy gz : ℕ) : CellMMAChange :=
  { cell_idx := g.index_of (stage1_neighbor pt.pos gx gy gz).1
      (stage1_neighbor pt.pos gx gy gz).2.1 (stage1_neighbor pt.pos gx gy gz).2.2,
    mass := stage1_weight pt.pos gx gy gz * pt.mass,
    momentum := V3.smul (stage1_weight pt.pos gx gy gz * pt.mass)
      (V3.add pt.vel (M3.mulVec pt.affine
        (cell_dist_of pt.pos (stage1_neighbor pt.pos gx gy gz)))) }

/-- The 27 scatter entries of one particle, in the order the three
    nested loops of p2g_stage1 write them (gx fastest). -/
def p2g_stage1_scatter (g : GridDim) (pt : Particle) : List CellMMAChange :=
  (List.range 3).flatMap fun gz =>
    (List.range 3).flatMap fun gy =>
      (List.range 3).map fun gx => p2g_stage1_entry g pt gx gy gz

/-- The scratch buffers tmp_mass and tmp_velo of the Grid resource. -/
structure GridScratch where
  tmp_mass : ℕ → ℚ
  tmp_velo : ℕ → V3 ℚ

/-- Accumulation of one scatter entry by p2g_apply_stage1:
    tmp_mass[idx] += mass and tmp_velo[idx] += momentum. -/
def apply_change (s : GridScratch) (e : CellMMAChange) : GridScratch :=
  { tmp_mass := fun i => if i = e.cell_idx then s.tmp_mass i + e.mass else s.tmp_mass i,
    tmp_velo := fun i => if i = e.cell_idx then V3.add (s.tmp_velo i) e.momentum
      else s.tmp_velo i }

/-- The serial apply step p2g_apply_stage1 (src/water/mlsmpm.rs):
    every particle's 27 scatter entries are accumulated in order. -/
def p2g_apply_stage1 (g : GridDim) (s : GridScratch) (ps : List Particle) : GridScratch :=
  ps.foldl (fun s pt => (p2g_stage1_scatter g pt).foldl apply_change s) s

/-- The scratch buffers after reset_fluid_grid_cells: all zeros. -/
def zero_scratch : GridScratch := ⟨fun _ => 0, fun _ => V3.zero⟩

/-- The strain modification step of p2g_stage2 (src/water/mlsmpm.rs,
    lines 175-179): starting from the particle's affine momentum, the
    code computes the value it names trace as strain.determinant() and
    writes it into strain.z_axis.x, strain.y_axis.y and strain.y_axis.z. -/
def p2g_stage2_strain (c : M3 ℚ) : M3 ℚ :=
  { xAxis := c.xAxis,
    yAxis := ⟨c.yAxis.x, M3.det c, M3.det c⟩,
    zAxis := ⟨M3.det c, c.zAxis.y, c.zAxis.z⟩ }

/-- The viscosity term strain * dynamic_viscosity added to the stress. -/
def p2g_stage2_viscosity_term (c : M3 ℚ) (dynamic_viscosity : ℚ) : M3 ℚ :=
  M3.smul dynamic_viscosity (p2g_stage2_strain c)

/-- The identity matrix probe input for the C3 divergence. -/
def strain_probe : M3 ℚ := ⟨⟨1, 0, 0⟩, ⟨0, 1, 0⟩, ⟨0, 0, 1⟩⟩

/-- Solid wall cell state read by wall_to_active_momentum: accumulated
    mass, accumulated velocity, and the precomputed fluid neighbors. -/
structure WallCell where
  mass : ℚ
  velo : V3 ℚ
  fluid_neighbors : List ℕ

/-- The share dmass = mass / neighbor count * 2 of wall_to_active_momentum. -/
def wall_dmass (c : WallCell) : ℚ := c.mass / (c.fluid_neighbors.length : ℚ) * 2

/-- The share dvel = velocity / neighbor count * 2 of wall_to_active_momentum. -/
def wall_dvel (c : WallCell) : V3 ℚ :=
  V3.smul 2 (V3.div c.velo (c.fluid_neighbors.length : ℚ))

/-- Redistribution of one solid cell (src/water/grid.rs, lines 398-407):
    every fluid neighbor receives dmass into tmp_mass and dvel into
    tmp_velo. -/
def wall_cell_redistribute (s : GridScratch) (c : WallCell) : GridScratch :=
  c.fluid_neighbors.foldl
    (fun s f =>
      { tmp_mass := fun i => if i = f then s.tmp_mass i + wall_dmass c else s.tmp_mass i,
        tmp_velo := fun i => if i = f then V3.add (s.tmp_velo i) (wall_dvel c)
          else s.tmp_velo i }) s

/-- wall_to_active_momentum (src/water/grid.rs): serial redistribution
    over all solid cells carrying a fluid-neighbor list. -/
def wall_to_active_momentum (s : GridScratch) (cs : List WallCell) : GridScratch :=
  cs.foldl wall_cell_redistribute s

/-- Pump state (src/tech/pump.rs). -/
structure Pump where
  source : V3 ℝ
  target : V3 ℝ
  target_velocity : V3 ℝ

/-- Pump::particle_pump: if the length of offset = refpoint - source is
    at most the effective radius 1, return the teleport destination
    target + offset together with the target velocity, else None. -/
noncomputable def particle_pump (pm : Pump) (refpoint : V3 ℝ) : Option (V3 ℝ × V3 ℝ) :=
  if Real.sqrt (V3.dot (V3.sub refpoint pm.source) (V3.sub refpoint pm.source)) ≤ 1 then
    some (V3.add pm.target (V3.sub refpoint pm.source), pm.target_velocity)
  else
    none

/-- Per-particle state manipulated by boundary enforcement. -/
structure ParticleState where
  pos : V3 ℝ
  vel : V3 ℝ
  affine : M3 ℝ

/-- The pump application inside particle_boundary_enforcement
    (src/water/fluid.rs, lines 340-346): on a hit the position, velocity
    and affine momentum are overwritten, otherwise nothing changes. -/
noncomputable def apply_pump (pm : Pump) (st : ParticleState) : ParticleState :=
  match particle_pump pm st.pos with
  | some nv => { pos := nv.1, vel := nv.2, affine := M3.zero }
  | none => st

/-- Concrete pump used by the C6 witness. -/
def pump_probe : Pump := ⟨⟨0, 0, 0⟩, ⟨10, 10, 10⟩, ⟨1, 2, 3⟩⟩

/-- Rust f32::clamp(lo, hi) for lo at most hi. -/
noncomputable def rust_clamp (v lo hi : ℝ) : ℝ := min (max v lo) hi

/-- The position clamp of particle_boundary_enforcement
    (src/water/fluid.rs, lines 348-350): every coordinate is clamped to
    the interval from 1.001 to the grid dimension minus 1.001. -/
noncomputable def boundary_clamp_pos (g : GridDim) (p : V3 ℝ) : V3 ℝ :=
  ⟨rust_clamp p.x 1.001 ((g.gx : ℝ) - 1.001),
   rust_clamp p.y 1.001 ((g.gy : ℝ) - 1.001),
   rust_clamp p.z 1.001 ((g.gz : ℝ) - 1.001)⟩

/-- One axis of the predictive wall-velocity dampening: with the fixed
    predicted position pn, add the signed overshoot against the walls
    1.5 and wall_max into the velocity component. -/
noncomputable def predictive_axis (wall_max pn v : ℝ) : ℝ :=
  if wall_max < pn then (if pn < 1.5 then v + (1.5 - pn) else v) + (wall_max - pn)
  else (if pn < 1.5 then v + (1.5 - pn) else v)

/-- particle_boundary_enforcement (src/water/fluid.rs): pump pass over
    all pumps, position clamp, then the predictive velocity dampening
    computed from position_next = pos + velocity * (0.1 * dt) against
    the wall extents 1.5 and grid dimension minus 1.5. -/
noncomputable def particle_boundary_enforcement (g : GridDim) (dt : ℝ)
    (pumps : List Pump) (st : ParticleState) : ParticleState :=
  { pos := boundary_clamp_pos g (pumps.foldl (fun s pm => apply_pump pm s) st).pos,
    vel :=
      ⟨predictive_axis ((g.gx : ℝ) - 1.5)
        (V3.add (boundary_clamp_pos g (pumps.foldl (fun s pm => apply_pump pm s) st).pos)
          (V3.smul (0.1 * dt) (pumps.foldl (fun s pm => apply_pump pm s) st).vel)).x
        (pumps.foldl (fun s pm => apply_pump pm s) st).vel.x,
       predictive_axis ((g.gy : ℝ) - 1.5)
        (V3.add (boundary_clamp_pos g (pumps.foldl (fun s pm => apply_pump pm s) st).pos)
          (V3.smul (0.1 * dt) (pumps.foldl (fun s pm => apply_pump pm s) st).vel)).y
        (pumps.foldl (fun s pm => apply_pump pm s) st).vel.y,
       predictive_axis ((g.gz : ℝ) - 1.5)
        (V3.add (boundary_clamp_pos g (pumps.foldl (fun s pm => apply_pump pm s) st).pos)
          (V3.smul (0.1 * dt) (pumps.foldl (fun s pm => apply_pump pm s) st).vel)).z
        (pumps.foldl (fun s pm => apply_pump pm s) st).vel.z⟩,
    affine := (pumps.foldl (fun s pm => apply_pump pm s) st).affine }

/-- Grid cell types (src/water/grid.rs). -/
inductive GridCellType where
  | Solid
  | Fluid
  | Air
deriving DecidableEq

/-- Per-cell state read by update_grid_cells: accumulated mass,
    accumulated momentum (held in the velocity field), the baked
    external force, the cell type and the collider normals. -/
structure UpdateCell where
  mass : ℝ
  velo : V3 ℝ
  ext_force : V3 ℝ
  ctype : GridCellType
  normals : List (V3 ℝ)

/-- The momentum-to-velocity conversion with external force of
    update_grid_cells: velocity * (1/mass) + external force * dt. -/
noncomputable def momentum_to_velocity (c : UpdateCell) (dt : ℝ) : V3 ℝ :=
  V3.add (V3.smul (1 / c.mass) c.velo) (V3.smul dt c.ext_force)

/-- The collision projection loop of update_grid_cells: for every
    non-zero normal whose dot product with the running velocity is
    negative, subtract the projected component. -/
noncomputable def project_collider_normals (v : V3 ℝ) (ns : List (V3 ℝ)) : V3 ℝ :=
  ns.foldl
    (fun vn n =>
      if n ≠ V3.zero ∧ V3.dot vn n < 0 then V3.sub vn (V3.smul (V3.dot vn n) n) else vn) v

/-- update_grid_cells (src/water/grid.rs, lines 421-462), per cell:
    Solid cells get zero velocity; cells with positive mass convert
    momentum to velocity, apply the external force, and, when collider
    normals are present, project them out and rescale by
    sqrt(|v_old|^2 / |v_new|^2) * 0.5; massless cells keep their
    accumulated value.  Caveat: the division in the rescale factor is
    total here (division by zero yields zero in a field), whereas f32
    yields infinity and then a NaN product whenever the projected
    velocity is exactly zero; update_grid_cells_checked below models
    that error path faithfully. -/
noncomputable def update_grid_cells (dt : ℝ) (c : UpdateCell) : V3 ℝ :=
  if c.ctype = GridCellType.Solid then V3.zero
  else if 0 < c.mass then
    if c.normals = [] then momentum_to_velocity c dt
    else
      V3.smul
        (Real.sqrt (V3.dot (momentum_to_velocity c dt) (momentum_to_velocity c dt) /
            V3.dot (project_collider_normals (momentum_to_velocity c dt) c.normals)
              (project_collider_normals (momentum_to_velocity c dt) c.normals)) * 0.5)
        (project_collider_normals (momentum_to_velocity c dt) c.normals)
  else c.velo

/-- Faithful model of the error path of update_grid_cells: the rescale
    factor of src/water/grid.rs line 449 divides |v_old|^2 by |v_new|^2,
    and when the projected velocity v_new is exactly zero the f32 code
    produces an infinite factor and line 459 multiplies the zero vector
    by it, contaminating the cell velocity with NaN.  No real number
    represents that outcome, so this variant returns none on it. -/
noncomputable def update_grid_cells_checked (dt : ℝ) (c : UpdateCell) : Option (V3 ℝ) :=
  if c.ctype = GridCellType.Solid then some V3.zero
  else if 0 < c.mass then
    if c.normals = [] then some (momentum_to_velocity c dt)
    else
      if V3.dot (project_collider_normals (momentum_to_velocity c dt) c.normals)
          (project_collider_normals (momentum_to_velocity c dt) c.normals) = 0 then
        none
      else
        some (V3.smul
          (Real.sqrt (V3.dot (momentum_to_velocity c dt) (momentum_to_velocity c dt) /
              V3.dot (project_collider_normals (momentum_to_velocity c dt) c.normals)
                (project_collider_normals (momentum_to_velocity c dt) c.normals)) * 0.5)
          (project_collider_normals (momentum_to_velocity c dt) c.normals))
  else some c.velo

/-- Concrete instance of the C4 input family: a fluid cell of mass 1
    carrying momentum (-1,0,0), no external force, with the single
    collider normal (1,0,0). -/
def reflection_probe : UpdateCell :=
  ⟨1, ⟨-1, 0, 0⟩, ⟨0, 0, 0⟩, GridCellType.Fluid, [⟨1, 0, 0⟩]⟩

/-- Shared helper: the clamped indexer always stays below cell_count
    as soon as the grid is non-empty. -/
lemma index_of_lt (g : GridDim) (x y z : ℕ) (h : 0 < g.cell_count) :
    g.index_of x y z < g.cell_count := by
  unfold GridDim.index_of
  split
  · omega
  · omega

lemma sum_tmp_mass_apply_change (n : ℕ) (s : GridScratch) (e : CellMMAChange)
    (h : e.cell_idx < n) :
    ∑ i ∈ Finset.range n, (apply_change s e).tmp_mass i =
      (∑ i ∈ Finset.range n, s.tmp_mass i) + e.mass := by
  have hrw : ∀ i, (apply_change s e).tmp_mass i =
      s.tmp_mass i + (if i = e.cell_idx then e.mass else 0) := by
    intro i
    by_cases hi : i = e.cell_idx <;> simp [apply_change, hi]
  calc ∑ i ∈ Finset.range n, (apply_change s e).tmp_mass i
      = ∑ i ∈ Finset.range n, (s.tmp_mass i + (if i = e.cell_idx then e.mass else 0)) :=
        Finset.sum_congr rfl (fun i _ => hrw i)
    _ = (∑ i ∈ Finset.range n, s.tmp_mass i) +
          ∑ i ∈ Finset.range n, (if i = e.cell_idx then e.mass else 0) :=
        Finset.sum_add_distrib
    _ = (∑ i ∈ Finset.range n, s.tmp_mass i) + e.mass := by
        rw [Finset.sum_ite_eq' (Finset.range n) e.cell_idx (fun _ => e.mass),
          if_pos (Finset.mem_range.mpr h)]

lemma sum_tmp_mass_foldl (n : ℕ) (l : List CellMMAChange) :
    ∀ s : GridScratch, (∀ e ∈ l, e.cell_idx < n) →
      ∑ i ∈ Finset.range n, (l.foldl apply_change s).tmp_mass i =
        (∑ i ∈ Finset.range n, s.tmp_mass i) + (l.map CellMMAChange.mass).sum := by
  induction l with
  | nil => intro s _; simp
  | cons e t ih =>
    intro s h
    simp only [List.foldl_cons, List.map_cons, List.sum_cons]
    rw [ih (apply_change s e) (fun x hx => h x (List.mem_cons_of_mem _ hx)),
      sum_tmp_mass_apply_change n s e (h e (List.mem_cons_self _ _))]
    ring

lemma p2g_stage1_scatter_idx_lt (g : GridDim) (pt : Particle)
    (h : 0 < g.cell_count) :
    ∀ e ∈ p2g_stage1_scatter g pt, e.cell_idx < g.cell_count := by
  intro e he
  simp only [p2g_stage1_scatter, List.mem_flatMap, List.mem_map] at he
  obtain ⟨gz, -, gy, -, gx, -, rfl⟩ := he
  exact index_of_lt g _ _ _ h

lemma p2g_stage1_scatter_mass_sum (g : GridDim) (pt : Particle) :
    ((p2g_stage1_scatter g pt).map CellMMAChange.mass).sum = pt.mass := by
  have h3 : List.range 3 = [0, 1, 2] := rfl
  simp only [p2g_stage1_scatter, h3, List.flatMap_cons, List.flatMap_nil,
    List.map_cons, List.map_nil, List.map_append, List.sum_append,
    List.sum_cons, List.sum_nil, List.append_nil, p2g_stage1_entry]
  simp only [stage1_weight, quadratic_interpolation_weights]
  norm_num
  ring

/-- C2: for any offset vector with components in the interval from -1/2
    to 1/2, the 27 stencil weights formed from
    quadratic_interpolation_weights sum to exactly 1 (exact arithmetic,
    hence well within the 1e-6 floating-point tolerance of the spec). -/
theorem quadratic_weights_partition_unity (d : V3 ℚ)
    (hx1 : -(1/2) ≤ d.x) (hx2 : d.x ≤ 1/2)
    (hy1 : -(1/2) ≤ d.y) (hy2 : d.y ≤ 1/2)
    (hz1 : -(1/2) ≤ d.z) (hz2 : d.z ≤ 1/2) :
    weight_sum d = 1 := by
  simp [weight_sum, Finset.sum_range_succ, quadratic_interpolation_weights]
  ring

/-- C2 witness: the partition-of-unity theorem applied at the concrete
    offset (1/4, -1/2, 3/10). -/
theorem quadratic_weights_partition_unity_witness :
    weight_sum ⟨1/4, -(1/2), 3/10⟩ = 1 :=
  quadratic_weights_partition_unity ⟨1/4, -(1/2), 3/10⟩
    (by norm_num) (by norm_num) (by norm_num) (by norm_num) (by norm_num) (by norm_num)

/-- C7: for coordinates inside the grid dimensions, Grid::to_3d inverts
    Grid::index_of exactly. -/
theorem to_3d_index_of_roundtrip (g : GridDim) (x y z : ℕ)
    (hx : x < g.gx) (hy : y < g.gy) (hz : z < g.gz) :
    g.to_3d (g.index_of x y z) = (x, y, z) := by
  have hgx : 0 < g.gx := lt_of_le_of_lt (Nat.zero_le x) hx
  have hgy : 0 < g.gy := lt_of_le_of_lt (Nat.zero_le y) hy
  have h1 : x + g.gx * y < g.gx * g.gy := by
    have h2 : g.gx * (y + 1) ≤ g.gx * g.gy := Nat.mul_le_mul (le_refl g.gx) hy
    have h3 : g.gx * (y + 1) = g.gx * y + g.gx := by ring
    omega
  have hidx : g.gx * g.gy * z + g.gx * y + x < g.cell_count := by
    have h2 : g.gx * g.gy * (z + 1) ≤ g.gx * g.gy * g.gz :=
      Nat.mul_le_mul (le_refl (g.gx * g.gy)) hz
    have h3 : g.gx * g.gy * (z + 1) = g.gx * g.gy * z + g.gx * g.gy := by ring
    unfold GridDim.cell_count
    omega
  have hif : g.index_of x y z = g.gx * g.gy * z + g.gx * y + x := by
    unfold GridDim.index_of
    rw [if_neg (by omega)]
  have e1 : g.gx * g.gy * z + g.gx * y + x = x + g.gx * (y + g.gy * z) := by ring
  have e2 : g.gx * g.gy * z + g.gx * y + x = (x + g.gx * y) + (g.gx * g.gy) * z := by ring
  rw [hif]
  unfold GridDim.to_3d
  simp only [Prod.mk.injEq]
  refine ⟨?_, ?_, ?_⟩
  · rw [e1, Nat.add_mul_mod_self_left, Nat.mod_eq_of_lt hx]
  · rw [e1, Nat.add_mul_div_left _ _ hgx, Nat.div_eq_of_lt hx, Nat.zero_add,
        Nat.add_mul_mod_self_left, Nat.mod_eq_of_lt hy]
  · rw [e2, Nat.add_mul_div_left _ _ (Nat.mul_pos hgx hgy), Nat.div_eq_of_lt h1,
        Nat.zero_add, Nat.mod_eq_of_lt hz]

/-- C7 witness: the round-trip theorem applied at grid (3,4,5) and
    coordinates (2,3,4). -/
theorem to_3d_index_of_roundtrip_witness :
    GridDim.to_3d ⟨3, 4, 5⟩ (GridDim.index_of ⟨3, 4, 5⟩ 2 3 4) = (2, 3, 4) :=
  to_3d_index_of_roundtrip ⟨3, 4, 5⟩ 2 3 4 (by decide) (by decide) (by decide)

/-- C9: for arbitrary coordinate inputs, including ones far outside the
    grid dimensions, the clamped indexer Grid::index_of returns an index
    strictly below cell_count, so grid indexing never goes out of bounds
    (the grids built by Grid::new always have a positive cell count). -/
theorem index_of_lt_cell_count (g : GridDim) (x y z : ℕ)
    (h : 0 < g.cell_count) : g.index_of x y z < g.cell_count := by
  unfold GridDim.index_of
  split
  · omega
  · omega

/-- C9 witness: the clamping theorem applied to the out-of-range
    coordinates (7,9,11) of a 2x2x2 grid. -/
theorem index_of_lt_cell_count_witness :
    GridDim.index_of ⟨2, 2, 2⟩ 7 9 11 < GridDim.cell_count ⟨2, 2, 2⟩ :=
  index_of_lt_cell_count ⟨2, 2, 2⟩ 7 9 11 (by decide)

/-- C1: after p2g stage 1 and the serial apply step starting from the
    reset (all-zero) scratch buffers, the total tmp_mass over all grid
    cells equals the total mass of the particles, exactly over exact
    arithmetic, for every particle configuration (in particular for
    particles in the grid interior). -/
theorem p2g_stage1_mass_conservation (g : GridDim) (ps : List Particle)
    (h : 0 < g.cell_count) :
    ∑ i ∈ Finset.range g.cell_count, (p2g_apply_stage1 g zero_scratch ps).tmp_mass i =
      (ps.map Particle.mass).sum := by
  suffices H : ∀ (ps : List Particle) (s : GridScratch),
      ∑ i ∈ Finset.range g.cell_count, (p2g_apply_stage1 g s ps).tmp_mass i =
        (∑ i ∈ Finset.range g.cell_count, s.tmp_mass i) + (ps.map Particle.mass).sum by
    rw [H ps zero_scratch]
    simp [zero_scratch]
  intro ps
  induction ps with
  | nil => intro s; simp [p2g_apply_stage1]
  | cons pt t ih =>
    intro s
    have hstep := ih ((p2g_stage1_scatter g pt).foldl apply_change s)
    simp only [p2g_apply_stage1, List.foldl_cons] at hstep ⊢
    rw [hstep, sum_tmp_mass_foldl g.cell_count _ s (p2g_stage1_scatter_idx_lt g pt h),
      p2g_stage1_scatter_mass_sum, List.map_cons, List.sum_cons]
    ring

/-- C1 witness: one particle of mass 3 at position (3/2, 3/2, 3/2) in a
    2x2x2 grid scatters a total tmp_mass of exactly 3. -/
theorem p2g_stage1_mass_conservation_witness :
    ∑ i ∈ Finset.range (GridDim.cell_count ⟨2, 2, 2⟩),
      (p2g_apply_stage1 ⟨2, 2, 2⟩ zero_scratch
        [⟨⟨3/2, 3/2, 3/2⟩, V3.zero, 3, M3.zero⟩]).tmp_mass i = 3 :=
  (p2g_stage1_mass_conservation ⟨2, 2, 2⟩
    [⟨⟨3/2, 3/2, 3/2⟩, V3.zero, 3, M3.zero⟩] (by decide)).trans (by simp)

/-- C3 divergence witness: at the identity affine-momentum matrix, the
    value p2g_stage2 writes into the three overwritten strain entries is
    the determinant (here 1), not the trace (here 3): the code computes
    strain.determinant() even though it names the result trace. -/
theorem p2g_stage2_strain_uses_determinant :
    (p2g_stage2_strain strain_probe).yAxis.y = M3.det strain_probe ∧
    (p2g_stage2_strain strain_probe).zAxis.x = M3.det strain_probe ∧
    (p2g_stage2_strain strain_probe).yAxis.z = M3.det strain_probe ∧
    M3.det strain_probe = 1 ∧
    M3.trace strain_probe = 3 ∧
    (p2g_stage2_strain strain_probe).yAxis.y ≠ M3.trace strain_probe := by
  refine ⟨rfl, rfl, rfl, ?_, ?_, ?_⟩ <;>
    norm_num [p2g_stage2_strain, strain_probe, M3.det, M3.trace, V3.dot]

/-- C10: a solid cell whose fluid-neighbor list is empty contributes no
    write at all: running wall_to_active_momentum with the cell present
    yields exactly the same scratch buffers as running it without the
    cell, even though its mass and velocity are divided by the zero
    neighbor count. -/
theorem wall_to_active_empty_neighbors (s : GridScratch)
    (cs1 cs2 : List WallCell) (c : WallCell) (h : c.fluid_neighbors = []) :
    wall_to_active_momentum s (cs1 ++ c :: cs2) =
      wall_to_active_momentum s (cs1 ++ cs2) := by
  have hid : ∀ s0 : GridScratch, wall_cell_redistribute s0 c = s0 := by
    intro s0
    unfold wall_cell_redistribute
    rw [h]
    rfl
  unfold wall_to_active_momentum
  rw [List.foldl_append, List.foldl_append, List.foldl_cons, hid]

/-- C10 witness: dropping a neighborless wall cell of mass 7 from a
    concrete two-cell pass leaves the scratch buffers identical. -/
theorem wall_to_active_empty_neighbors_witness :
    wall_to_active_momentum zero_scratch [⟨5, ⟨1, 2, 3⟩, [4]⟩, ⟨7, ⟨9, 9, 9⟩, []⟩] =
      wall_to_active_momentum zero_scratch [⟨5, ⟨1, 2, 3⟩, [4]⟩] := by
  have h := wall_to_active_empty_neighbors zero_scratch
    [⟨5, ⟨1, 2, 3⟩, [4]⟩] [] ⟨7, ⟨9, 9, 9⟩, []⟩ rfl
  simpa using h

/-- C6: a particle within distance 1 of the pump source is teleported to
    target + offset with the pump's target velocity and a zero affine
    momentum matrix; a particle farther away is left unchanged. -/
theorem pump_teleport_spec (pm : Pump) (st : ParticleState) :
    (Real.sqrt (V3.dot (V3.sub st.pos pm.source) (V3.sub st.pos pm.source)) ≤ 1 →
      apply_pump pm st =
        ⟨V3.add pm.target (V3.sub st.pos pm.source), pm.target_velocity, M3.zero⟩) ∧
    (1 < Real.sqrt (V3.dot (V3.sub st.pos pm.source) (V3.sub st.pos pm.source)) →
      apply_pump pm st = st) := by
  constructor
  · intro h
    simp [apply_pump, particle_pump, h]
  · intro h
    simp [apply_pump, particle_pump, not_le.mpr h]

/-- C6 witness: a particle at the pump source (distance 0) is teleported
    and reoriented, while a particle at distance 2 is untouched. -/
theorem pump_teleport_spec_witness :
    apply_pump pump_probe ⟨⟨0, 0, 0⟩, ⟨5, 5, 5⟩, M3.zero⟩ =
      ⟨V3.add pump_probe.target (V3.sub (V3.mk 0 0 0) pump_probe.source),
        pump_probe.target_velocity, M3.zero⟩ ∧
    apply_pump pump_probe ⟨⟨2, 0, 0⟩, ⟨4, 4, 4⟩, M3.zero⟩ =
      ⟨⟨2, 0, 0⟩, ⟨4, 4, 4⟩, M3.zero⟩ := by
  have h4 : Real.sqrt 4 = 2 := by
    rw [show (4 : ℝ) = 2 ^ 2 by norm_num, Real.sqrt_sq (by norm_num : (0:ℝ) ≤ 2)]
  constructor
  · exact (pump_teleport_spec pump_probe ⟨⟨0, 0, 0⟩, ⟨5, 5, 5⟩, M3.zero⟩).1
      (by norm_num [pump_probe, V3.sub, V3.dot, Real.sqrt_zero])
  · exact (pump_teleport_spec pump_probe ⟨⟨2, 0, 0⟩, ⟨4, 4, 4⟩, M3.zero⟩).2
      (by norm_num [pump_probe, V3.sub, V3.dot, h4])

/-- C5: after particle_boundary_enforcement every position coordinate
    lies between 1.001 and the grid dimension minus 1.001, whatever the
    incoming position, velocity and pump teleports were (the grid must
    merely be large enough for the interval to be non-empty). -/
theorem boundary_enforcement_position_bounds (g : GridDim) (dt : ℝ)
    (pumps : List Pump) (st : ParticleState)
    (hgx : (1.001 : ℝ) ≤ (g.gx : ℝ) - 1.001)
    (hgy : (1.001 : ℝ) ≤ (g.gy : ℝ) - 1.001)
    (hgz : (1.001 : ℝ) ≤ (g.gz : ℝ) - 1.001) :
    (1.001 ≤ (particle_boundary_enforcement g dt pumps st).pos.x ∧
      (particle_boundary_enforcement g dt pumps st).pos.x ≤ (g.gx : ℝ) - 1.001) ∧
    (1.001 ≤ (particle_boundary_enforcement g dt pumps st).pos.y ∧
      (particle_boundary_enforcement g dt pumps st).pos.y ≤ (g.gy : ℝ) - 1.001) ∧
    (1.001 ≤ (particle_boundary_enforcement g dt pumps st).pos.z ∧
      (particle_boundary_enforcement g dt pumps st).pos.z ≤ (g.gz : ℝ) - 1.001) := by
  simp only [particle_boundary_enforcement, boundary_clamp_pos, rust_clamp]
  refine ⟨⟨?_, ?_⟩, ⟨?_, ?_⟩, ⟨?_, ?_⟩⟩
  · exact le_min (le_max_right _ _) hgx
  · exact min_le_right _ _
  · exact le_min (le_max_right _ _) hgy
  · exact min_le_right _ _
  · exact le_min (le_max_right _ _) hgz
  · exact min_le_right _ _

/-- C5 witness: the bounds theorem applied to a particle far outside a
    10x10x10 grid, with no pumps. -/
theorem boundary_enforcement_position_bounds_witness :
    (1.001 ≤ (particle_boundary_enforcement ⟨10, 10, 10⟩ 0 []
        ⟨⟨-5, 100, 3⟩, V3.zero, M3.zero⟩).pos.x ∧
      (particle_boundary_enforcement ⟨10, 10, 10⟩ 0 []
        ⟨⟨-5, 100, 3⟩, V3.zero, M3.zero⟩).pos.x ≤ ((10 : ℕ) : ℝ) - 1.001) ∧
    (1.001 ≤ (particle_boundary_enforcement ⟨10, 10, 10⟩ 0 []
        ⟨⟨-5, 100, 3⟩, V3.zero, M3.zero⟩).pos.y ∧
      (particle_boundary_enforcement ⟨10, 10, 10⟩ 0 []
        ⟨⟨-5, 100, 3⟩, V3.zero, M3.zero⟩).pos.y ≤ ((10 : ℕ) : ℝ) - 1.001) ∧
    (1.001 ≤ (particle_boundary_enforcement ⟨10, 10, 10⟩ 0 []
        ⟨⟨-5, 100, 3⟩, V3.zero, M3.zero⟩).pos.z ∧
      (particle_boundary_enforcement ⟨10, 10, 10⟩ 0 []
        ⟨⟨-5, 100, 3⟩, V3.zero, M3.zero⟩).pos.z ≤ ((10 : ℕ) : ℝ) - 1.001) :=
  boundary_enforcement_position_bounds ⟨10, 10, 10⟩ 0 [] ⟨⟨-5, 100, 3⟩, V3.zero, M3.zero⟩
    (by norm_num) (by norm_num) (by norm_num)

/-- C8: a Solid cell always ends the grid update with exactly zero
    velocity, whatever momentum was accumulated on it. -/
theorem solid_cells_zero_velocity (dt : ℝ) (c : UpdateCell)
    (h : c.ctype = GridCellType.Solid) : update_grid_cells dt c = V3.zero := by
  simp [update_grid_cells, h]

/-- C8 witness: a concrete Solid cell with accumulated momentum and a
    gravity force ends with zero velocity. -/
theorem solid_cells_zero_velocity_witness :
    update_grid_cells (1/60) ⟨5, ⟨1, 2, 3⟩, ⟨0, -(49/5), 0⟩, GridCellType.Solid, []⟩ =
      V3.zero :=
  solid_cells_zero_velocity (1/60) ⟨5, ⟨1, 2, 3⟩, ⟨0, -(49/5), 0⟩, GridCellType.Solid, []⟩ rfl

/-- C4 divergence: at a concrete instance of the claimed input family
    (single normal (1,0,0), converted velocity (-1,0,0), v = 1 greater
    than 0), the projection loop cancels the velocity exactly, the
    numerator |v_old|^2 of the rescale factor is positive while its
    denominator |v_new|^2 is exactly zero, and the checked grid update
    lands on the division-by-zero error path: in f32 the factor is
    infinite and the final velocity is NaN componentwise, so its x
    component is not non-negative as the claim states. -/
theorem collider_reflection_head_on_division_by_zero :
    momentum_to_velocity reflection_probe 1 = V3.mk (-1) 0 0 ∧
    reflection_probe.normals = [V3.mk 1 0 0] ∧
    project_collider_normals (V3.mk (-1) 0 0) [V3.mk 1 0 0] = V3.mk 0 0 0 ∧
    0 < V3.dot (V3.mk (-1 : ℝ) 0 0) (V3.mk (-1) 0 0) ∧
    V3.dot (V3.mk (0 : ℝ) 0 0) (V3.mk 0 0 0) = 0 ∧
    update_grid_cells_checked 1 reflection_probe = none := by
  have hne : (V3.mk (1:ℝ) 0 0) ≠ V3.zero := by
    intro hcontra
    have h1 : (1:ℝ) = 0 := congrArg V3.x hcontra
    norm_num at h1
  have hmv : momentum_to_velocity reflection_probe 1 = V3.mk (-1) 0 0 := by
    norm_num [momentum_to_velocity, reflection_probe, V3.add, V3.smul, V3.mk.injEq]
  have hdot : V3.dot (V3.mk (-1 : ℝ) 0 0) (V3.mk 1 0 0) = -1 := by
    norm_num [V3.dot]
  have hproj : project_collider_normals (V3.mk (-1) 0 0) [V3.mk 1 0 0] = V3.mk 0 0 0 := by
    simp only [project_collider_normals, List.foldl_cons, List.foldl_nil]
    rw [if_pos ⟨hne, by rw [hdot]; norm_num⟩]
    simp only [V3.sub, V3.smul, hdot, V3.mk.injEq]
    norm_num
  have hns : reflection_probe.ctype ≠ GridCellType.Solid := by decide
  have hm : (0:ℝ) < reflection_probe.mass := by norm_num [reflection_probe]
  have hnl : reflection_probe.normals = [V3.mk 1 0 0] := rfl
  refine ⟨hmv, hnl, hproj, by norm_num [V3.dot], by norm_num [V3.dot], ?_⟩
  unfold update_grid_cells_checked
  rw [if_neg hns, if_pos hm, if_neg (by rw [hnl]; simp), hnl, hmv, hproj,
    if_pos (by norm_num [V3.dot])]

end Lisal
